import Mathlib

/-!
Shallow embedding of the request handlers from `approutes.py`, an educational
repository collecting equivalent HTTP routing demos for Flask, FastAPI,
Starlette and Tornado.  Every handler is a pure mapping from request
parameters to a canned JSON response; each definition below translates one
handler (or the helper it delegates to) from the Python source.  Fields that
depend on the wall clock (`time.time()`-derived timestamps, request ids) and
floating-point relevance scores are omitted, as noted per definition; all
other payload fields are kept.
-/

/-- Python list slicing `l[a:b]` with step 1: negative indices count from the
end, and both bounds are clamped into `[0, len(l)]`. -/
def pyslice {α : Type} (l : List α) (a b : Int) : List α :=
  let n : Int := l.length
  let a2 : Int := if a < 0 then max (n + a) 0 else min a n
  let b2 : Int := if b < 0 then max (n + b) 0 else min b n
  (l.take b2.toNat).drop a2.toNat

/-- Python `range(a, b)` as a list of integers (empty when `b <= a`). -/
def pyrange (a b : Int) : List Int :=
  List.map (fun k : Nat => a + (k : Int)) (List.range (b - a).toNat)

/-- Python substring test `needle in hay` for strings: contiguous infix of
the character sequence. -/
def str_contains (needle hay : String) : Bool :=
  decide (needle.toList <:+: hay.toList)

/-- Python format spec `{:03d}` for the nonnegative ids used here: the decimal
rendering zero-padded on the left to width 3. -/
def pad3 (n : Int) : String :=
  let s := toString n
  if 3 ≤ s.length then s else ("".pushn '0' (3 - s.length)) ++ s

-- ===========================================================================
-- Flask: GET /users  (approutes.py lines 34-51)
-- ===========================================================================

/-- The Flask handler's synthesized user list `[f"User_{i}" for i in range(1, 101)]`. -/
def flask_all_users : List String :=
  (pyrange 1 101).map (fun i => "User_" ++ toString i)

/-- Response body of the Flask `GET /users` handler. -/
structure FlaskUsersResp where
  users : List String
  page : Int
  limit : Int
  total : Nat
  has_next : Bool
deriving DecidableEq

/-- Flask `get_users`: no validation of `page`/`limit`; slices the synthesized
list with Python slice semantics and reports `total` and `has_next`. -/
def flask_get_users (page limit : Int) : FlaskUsersResp :=
  let start := (page - 1) * limit
  let stop := start + limit
  { users := pyslice flask_all_users start stop
    page := page
    limit := limit
    total := flask_all_users.length
    has_next := decide (stop < (flask_all_users.length : Int)) }

-- ===========================================================================
-- Starlette: users_list  (approutes.py lines 963-997)
-- ===========================================================================

/-- One entry of the Starlette synthesized user list (the `created_at`
timestamp field is omitted, being wall-clock dependent). -/
structure SUser where
  id : Int
  username : String
  email : String
  active : Bool
deriving DecidableEq

/-- The Starlette handler's synthesized users, ids 1 through 50. -/
def starlette_all_users : List SUser :=
  (pyrange 1 51).map (fun i =>
    { id := i
      username := "user_" ++ toString i
      email := "user_" ++ toString i ++ "@example.com"
      active := decide (i % 3 ≠ 0) })

/-- The `if search:` filter of `users_list`: keep users whose lowercased
username contains the lowercased search string. -/
def starlette_filtered_users (search : String) : List SUser :=
  if search = "" then starlette_all_users
  else starlette_all_users.filter (fun u => str_contains search.toLower u.username.toLower)

/-- Outcome of the Starlette `GET /users` handler: a 400 error (the body's
error message is a fixed string, omitted here) or the 200 payload. -/
inductive SUsersResp where
  | badRequest
  | ok (users : List SUser) (page limit : Int) (total : Nat) (has_next has_previous : Bool)
deriving DecidableEq

def SUsersResp.usersOf : SUsersResp → Option (List SUser)
  | .badRequest => none
  | .ok us _ _ _ _ _ => some us

def SUsersResp.totalOf : SUsersResp → Option Nat
  | .badRequest => none
  | .ok _ _ _ t _ _ => some t

def SUsersResp.hasNextOf : SUsersResp → Option Bool
  | .badRequest => none
  | .ok _ _ _ _ hn _ => some hn

/-- Starlette `users_list`: rejects `page < 1` and `limit` outside `[1, 100]`
with 400, otherwise filters, slices, and reports pagination metadata. -/
def starlette_users_list (page limit : Int) (search : String) : SUsersResp :=
  if page < 1 then .badRequest
  else if limit < 1 ∨ 100 < limit then .badRequest
  else
    let fl := starlette_filtered_users search
    let start := (page - 1) * limit
    let stop := start + limit
    .ok (pyslice fl start stop) page limit fl.length
      (decide (stop < (fl.length : Int))) (decide (1 < page))

-- ===========================================================================
-- Tornado: UsersHandler.get / get_users_from_database  (lines 1527-1642)
-- ===========================================================================

def tornado_locations : List String := ["New York", "London", "Tokyo", "Sydney"]

/-- One entry of the Tornado synthesized user table (the `created_at`
timestamp is omitted, being wall-clock dependent). -/
structure TUserRow where
  id : Int
  username : String
  email : String
  active : Bool
  posts_count : Int
  full_name : String
  location : String
deriving DecidableEq

/-- The Tornado handler's synthesized users, ids 1 through 100, usernames
zero-padded with the `{:03d}` format spec. -/
def tornado_all_users : List TUserRow :=
  (pyrange 1 101).map (fun i =>
    { id := i
      username := "user_" ++ pad3 i
      email := "user_" ++ pad3 i ++ "@example.com"
      active := decide (i % 4 ≠ 0)
      posts_count := max 0 (50 - i)
      full_name := "User Number " ++ pad3 i
      location := tornado_locations.getD (i % 4).toNat "" })

/-- The filters of `get_users_from_database`: `active_only` first, then the
search filter over username or email. -/
def tornado_filtered_users (search : String) (active_only : Bool) : List TUserRow :=
  let l1 := if active_only then tornado_all_users.filter (fun u => u.active) else tornado_all_users
  if search = "" then l1
  else l1.filter (fun u =>
    str_contains search.toLower u.username.toLower || str_contains search.toLower u.email.toLower)

/-- Outcome of the Tornado `GET /users` handler (error bodies omitted). -/
inductive TUsersResp where
  | badRequest
  | ok (users : List TUserRow) (page limit : Int) (total : Nat) (has_next has_previous : Bool)
deriving DecidableEq

def TUsersResp.usersOf : TUsersResp → Option (List TUserRow)
  | .badRequest => none
  | .ok us _ _ _ _ _ => some us

def TUsersResp.totalOf : TUsersResp → Option Nat
  | .badRequest => none
  | .ok _ _ _ t _ _ => some t

def TUsersResp.hasNextOf : TUsersResp → Option Bool
  | .badRequest => none
  | .ok _ _ _ _ hn _ => some hn

/-- Tornado `UsersHandler.get` composed with `get_users_from_database`:
validates `page >= 1` and `1 <= limit <= 100`, then filters, slices and
reports pagination metadata (the `query_time` string is omitted). -/
def tornado_get_users (page limit : Int) (search : String) (active_only : Bool) : TUsersResp :=
  if page < 1 then .badRequest
  else if limit < 1 ∨ 100 < limit then .badRequest
  else
    let fl := tornado_filtered_users search active_only
    let start := (page - 1) * limit
    let stop := start + limit
    .ok (pyslice fl start stop) page limit fl.length
      (decide (stop < (fl.length : Int))) (decide (1 < page))

-- ===========================================================================
-- Theorems
-- ===========================================================================

/-- C1: for every GET request to a user-listing endpoint with integer
parameters page and limit, the returned user list is the Python slice of the
synthesized (filtered, where filters exist) user list from `(page-1)*limit`
to `(page-1)*limit+limit`, the reported total is the length of the filtered
full list, and `has_next` holds iff `(page-1)*limit+limit` is strictly below
that total.  The Flask handler accepts every integer `page` and `limit`
(binders `fp`, `fl`, unconstrained); the Starlette and Tornado handlers
accept `page >= 1` and `1 <= limit <= 100`. -/
theorem C1_pagination_consistent
    (fp fl : Int) (page limit : Int) (search : String) (active_only : Bool)
    (hp : 1 ≤ page) (hl1 : 1 ≤ limit) (hl2 : limit ≤ 100) :
    ((flask_get_users fp fl).users = pyslice flask_all_users ((fp - 1) * fl) ((fp - 1) * fl + fl) ∧
     (flask_get_users fp fl).total = flask_all_users.length ∧
     ((flask_get_users fp fl).has_next = true ↔ (fp - 1) * fl + fl < (flask_all_users.length : Int))) ∧
    ((starlette_users_list page limit search).usersOf =
        some (pyslice (starlette_filtered_users search) ((page - 1) * limit) ((page - 1) * limit + limit)) ∧
     (starlette_users_list page limit search).totalOf = some (starlette_filtered_users search).length ∧
     ((starlette_users_list page limit search).hasNextOf = some true ↔
        (page - 1) * limit + limit < ((starlette_filtered_users search).length : Int))) ∧
    ((tornado_get_users page limit search active_only).usersOf =
        some (pyslice (tornado_filtered_users search active_only) ((page - 1) * limit) ((page - 1) * limit + limit)) ∧
     (tornado_get_users page limit search active_only).totalOf =
        some (tornado_filtered_users search active_only).length ∧
     ((tornado_get_users page limit search active_only).hasNextOf = some true ↔
        (page - 1) * limit + limit < ((tornado_filtered_users search active_only).length : Int))) := by
  have hs1 : ¬ page < 1 := by omega
  have hs2 : ¬ (limit < 1 ∨ 100 < limit) := by omega
  refine ⟨⟨rfl, rfl, ?_⟩, ?_, ?_⟩
  · simp [flask_get_users]
  · rw [starlette_users_list, if_neg hs1, if_neg hs2]
    refine ⟨rfl, rfl, ?_⟩
    simp [SUsersResp.hasNextOf]
  · rw [tornado_get_users, if_neg hs1, if_neg hs2]
    refine ⟨rfl, rfl, ?_⟩
    simp [TUsersResp.hasNextOf]

/-- Witness for C1 at `fp = 0`, `fl = -5` (a non-positive page and a negative
limit for the Flask handler, which rejects neither) and accepted
`page = 2`, `limit = 10`, no filters, for the other two handlers. -/
theorem C1_pagination_consistent_witness :
    ((1 : Int) ≤ 2 ∧ (1 : Int) ≤ 10 ∧ (10 : Int) ≤ 100) ∧
    (((flask_get_users 0 (-5)).users = pyslice flask_all_users (((0 : Int) - 1) * (-5)) (((0 : Int) - 1) * (-5) + (-5)) ∧
      (flask_get_users 0 (-5)).total = flask_all_users.length ∧
      ((flask_get_users 0 (-5)).has_next = true ↔ ((0 : Int) - 1) * (-5) + (-5) < (flask_all_users.length : Int))) ∧
     ((starlette_users_list 2 10 "").usersOf =
        some (pyslice (starlette_filtered_users "") (((2 : Int) - 1) * 10) (((2 : Int) - 1) * 10 + 10)) ∧
      (starlette_users_list 2 10 "").totalOf = some (starlette_filtered_users "").length ∧
      ((starlette_users_list 2 10 "").hasNextOf = some true ↔
        ((2 : Int) - 1) * 10 + 10 < ((starlette_filtered_users "").length : Int))) ∧
     ((tornado_get_users 2 10 "" false).usersOf =
        some (pyslice (tornado_filtered_users "" false) (((2 : Int) - 1) * 10) (((2 : Int) - 1) * 10 + 10)) ∧
      (tornado_get_users 2 10 "" false).totalOf = some (tornado_filtered_users "" false).length ∧
      ((tornado_get_users 2 10 "" false).hasNextOf = some true ↔
        ((2 : Int) - 1) * 10 + 10 < ((tornado_filtered_users "" false).length : Int)))) :=
  ⟨⟨by decide, by decide, by decide⟩,
   C1_pagination_consistent 0 (-5) 2 10 "" false (by decide) (by decide) (by decide)⟩

-- ===========================================================================
-- FastAPI: GET /users/{user_id}  (approutes.py lines 492-504)
-- ===========================================================================

/-- The FastAPI `User` pydantic model (the `created_at` timestamp default is
omitted, being wall-clock dependent). -/
structure FUser where
  id : Int
  username : String
  email : String
  is_active : Bool
  is_admin : Bool
deriving DecidableEq

/-- The `user_data` dict of the FastAPI `get_user` handler: exactly the keys
1, 2 and 3. -/
def fastapi_user_data (user_id : Int) : Option FUser :=
  if user_id = 1 then some { id := 1, username := "alice", email := "alice@example.com", is_active := true, is_admin := false }
  else if user_id = 2 then some { id := 2, username := "bob", email := "bob@example.com", is_active := false, is_admin := false }
  else if user_id = 3 then some { id := 3, username := "charlie", email := "charlie@example.com", is_active := true, is_admin := false }
  else none

/-- FastAPI `get_user`: the route's `Path(..., gt=0)` constraint means the
handler body only ever runs for positive ids (a non-positive id is rejected
by FastAPI validation before the handler); inside, an id absent from
`user_data` raises HTTP 404. -/
def fastapi_get_user (user_id : Int) : Except Nat FUser :=
  match fastapi_user_data user_id with
  | some u => .ok u
  | none => .error 404

-- ===========================================================================
-- Starlette: user_detail  (approutes.py lines 999-1025)
-- ===========================================================================

/-- The record synthesized by the Starlette `user_detail` handler for an
in-range id (the `created_at` timestamp and the fixed strings `bio` and
`location` are carried verbatim; `created_at` is omitted as wall-clock). -/
structure SDetail where
  id : Int
  username : String
  email : String
  full_name : String
  bio : String
  location : String
  posts : Int
  followers : Int
  following : Int
  active : Bool
deriving DecidableEq

def starlette_user_record (user_id : Int) : SDetail :=
  { id := user_id
    username := "user_" ++ toString user_id
    email := "user_" ++ toString user_id ++ "@example.com"
    full_name := "User Number " ++ toString user_id
    bio := "I am user number " ++ toString user_id
    location := "Internet"
    posts := user_id * 2
    followers := user_id * 5
    following := user_id * 3
    active := decide (user_id % 3 ≠ 0) }

/-- Outcome of the Starlette `GET /users/{user_id}` handler (error bodies
omitted). -/
inductive SDetailResp where
  | badRequest
  | notFound
  | ok (d : SDetail)
deriving DecidableEq

def SDetailResp.status : SDetailResp → Nat
  | .badRequest => 400
  | .notFound => 404
  | .ok _ => 200

/-- Starlette `user_detail`: `user_id <= 0` gives 400, `user_id > 50` gives
404, otherwise the synthesized record. -/
def starlette_user_detail (user_id : Int) : SDetailResp :=
  if user_id ≤ 0 then .badRequest
  else if 50 < user_id then .notFound
  else .ok (starlette_user_record user_id)

-- ===========================================================================
-- Tornado: UserDetailHandler.get / get_user_details  (lines 1664-1764)
-- ===========================================================================

/-- The record synthesized by Tornado's `get_user_details` (timestamp field
omitted as wall-clock). -/
structure TDetail where
  id : Int
  username : String
  email : String
  active : Bool
  full_name : String
  bio : String
  location : String
  posts_count : Int
  followers_count : Int
  following_count : Int
deriving DecidableEq

def tornado_user_record (user_id : Int) : TDetail :=
  { id := user_id
    username := "user_" ++ pad3 user_id
    email := "user_" ++ pad3 user_id ++ "@example.com"
    active := decide (user_id % 4 ≠ 0)
    full_name := "User Number " ++ pad3 user_id
    bio := "I am user #" ++ toString user_id ++ " with interests in technology"
    location := tornado_locations.getD (user_id % 4).toNat ""
    posts_count := max 0 (50 - user_id)
    followers_count := max 0 (user_id * 3)
    following_count := max 0 (user_id * 2) }

/-- Tornado `get_user_details`: `None` for ids above 100, otherwise the
synthesized record. -/
def tornado_get_user_details (user_id : Int) : Option TDetail :=
  if 100 < user_id then none else some (tornado_user_record user_id)

/-- Status of Tornado `UserDetailHandler.get` for a numeric id: the
`int(...)`/`user_id <= 0` check raises and is answered with 400, a missing
record with 404, otherwise 200.  (The route regex `([0-9]+)` only ever
passes nonnegative ids.) -/
def tornado_user_get (user_id : Int) : Nat :=
  if user_id ≤ 0 then 400
  else match tornado_get_user_details user_id with
    | none => 404
    | some _ => 200

/-- C2 as stated is false: a non-positive id does not give 404.  At id 0 the
Starlette handler answers 400 (`Invalid user ID`) and the Tornado handler
answers 400 (`Invalid user ID format`); neither answers 404. -/
theorem C2_nonpositive_not_404_counterexample :
    (starlette_user_detail 0).status = 400 ∧ tornado_user_get 0 = 400 ∧ (400 : Nat) ≠ 404 := by
  refine ⟨rfl, rfl, by decide⟩

/-- C2 amended: an id above the synthesized range yields 404 (above 3 for
FastAPI, above 50 for Starlette, above 100 for Tornado), while a
non-positive id yields 400 from the Starlette and Tornado handlers (and is
rejected by FastAPI's `gt=0` path validation before its handler runs). -/
theorem C2_out_of_range_404_amended
    (a b c d : Int) (ha : 3 < a) (hb : 50 < b) (hc : 100 < c) (hd : d ≤ 0) :
    fastapi_get_user a = .error 404 ∧
    (starlette_user_detail b).status = 404 ∧
    tornado_user_get c = 404 ∧
    (starlette_user_detail d).status = 400 ∧
    tornado_user_get d = 400 := by
  have hda : fastapi_user_data a = none := by
    rw [fastapi_user_data, if_neg (by omega), if_neg (by omega), if_neg (by omega)]
  refine ⟨by rw [fastapi_get_user, hda], ?_, ?_, ?_, ?_⟩
  · rw [starlette_user_detail, if_neg (by omega), if_pos hb]; rfl
  · rw [tornado_user_get, if_neg (by omega), tornado_get_user_details, if_pos hc]
  · rw [starlette_user_detail, if_pos hd]; rfl
  · rw [tornado_user_get, if_pos hd]

/-- Witness for C2 amended at ids 4, 51, 101 and 0. -/
theorem C2_out_of_range_404_amended_witness :
    ((3 : Int) < 4 ∧ (50 : Int) < 51 ∧ (100 : Int) < 101 ∧ (0 : Int) ≤ 0) ∧
    (fastapi_get_user 4 = .error 404 ∧
     (starlette_user_detail 51).status = 404 ∧
     tornado_user_get 101 = 404 ∧
     (starlette_user_detail 0).status = 400 ∧
     tornado_user_get 0 = 400) :=
  ⟨⟨by decide, by decide, by decide, by decide⟩,
   C2_out_of_range_404_amended 4 51 101 0 (by decide) (by decide) (by decide) (by decide)⟩

/-- C8 as stated is false for the Tornado handler: the username it
synthesizes is zero-padded with the `{:03d}` format spec, so at id 5 it is
`user_005`, not `user_5`. -/
theorem C8_tornado_username_padded_counterexample :
    Option.map TDetail.username (tornado_get_user_details 5) = some "user_005" ∧
    Option.map TDetail.username (tornado_get_user_details 5) ≠ some "user_5" := by
  refine ⟨rfl, by decide⟩

/-- C8 amended: for an in-range id `i` both user-detail handlers synthesize
the record from the request parameter with `id = i`; the Starlette username
is `user_` followed by the plain decimal rendering of `i`, while the Tornado
username is `user_` followed by the decimal rendering zero-padded to three
digits (`{:03d}`), so the two agree only for `i >= 100`. -/
theorem C8_user_record_synthesized_amended
    (i j : Int) (hi1 : 1 ≤ i) (hi2 : i ≤ 50) (hj1 : 1 ≤ j) (hj2 : j ≤ 100) :
    (starlette_user_detail i = .ok (starlette_user_record i) ∧
     (starlette_user_record i).id = i ∧
     (starlette_user_record i).username = "user_" ++ toString i) ∧
    (tornado_get_user_details j = some (tornado_user_record j) ∧
     (tornado_user_record j).id = j ∧
     (tornado_user_record j).username = "user_" ++ pad3 j) := by
  refine ⟨⟨?_, rfl, rfl⟩, ⟨?_, rfl, rfl⟩⟩
  · rw [starlette_user_detail, if_neg (by omega), if_neg (by omega)]
  · rw [tornado_get_user_details, if_neg (by omega)]

/-- Witness for C8 amended at ids 5 and 5: Starlette yields `user_5`,
Tornado yields `user_005`. -/
theorem C8_user_record_synthesized_amended_witness :
    ((1 : Int) ≤ 5 ∧ (5 : Int) ≤ 50 ∧ (5 : Int) ≤ 100) ∧
    ((starlette_user_detail 5 = .ok (starlette_user_record 5) ∧
      (starlette_user_record 5).id = 5 ∧
      (starlette_user_record 5).username = "user_" ++ toString (5 : Int)) ∧
     (tornado_get_user_details 5 = some (tornado_user_record 5) ∧
      (tornado_user_record 5).id = 5 ∧
      (tornado_user_record 5).username = "user_" ++ pad3 5)) :=
  ⟨⟨by decide, by decide, by decide⟩,
   C8_user_record_synthesized_amended 5 5 (by decide) (by decide) (by decide) (by decide)⟩

-- ===========================================================================
-- Search handlers  (Flask 113-146, FastAPI 547-582, Starlette 1055-1097,
-- Tornado 1805-1848)
-- ===========================================================================

/-- One fabricated Flask search result (the floating-point `relevance` field
is omitted; the title wraps the query in single quotes in the source, the
quotes are dropped here as string cosmetics). -/
structure FlaskSearchResult where
  id : Int
  title : String
  category : String
  url : String
deriving DecidableEq

/-- Outcome of the Flask `GET /search` handler (error body omitted). -/
inductive FlaskSearchResp where
  | badRequest
  | ok (query category : String) (page limit : Int)
       (results : List FlaskSearchResult) (total : Nat) (has_next : Bool)
deriving DecidableEq

/-- Flask `search`: empty (or absent, since `args.get` defaults to the empty
string) `q` gives 400; `limit` is clamped to 100; results are fabricated for
ids `(page-1)*limit+1` up to `min(page*limit+1, 26)`, `total` is the
constant 25 and `has_next` is `page*limit < 25`. -/
def flask_search (q category : String) (page limit : Int) : FlaskSearchResp :=
  if q = "" then .badRequest
  else
    let lim := if 100 < limit then 100 else limit
    let results := (pyrange ((page - 1) * lim + 1) (min (page * lim + 1) 26)).map (fun i =>
      { id := i
        title := "Result " ++ toString i ++ " for " ++ q
        category := category
        url := "/result/" ++ toString i })
    .ok q category page lim results 25 (decide (page * lim < 25))

/-- Models the FastAPI framework's validation of the search route's `q`
parameter, declared `Query(..., min_length=1, max_length=100)` in the
source: a request where `q` is absent or shorter than one character is
rejected by FastAPI with status 422 before the handler body runs; `none`
means validation passes and the handler runs. -/
def fastapi_search_q_check (q : Option String) : Option Nat :=
  match q with
  | none => some 422
  | some s => if s.length < 1 then some 422 else none

/-- One fabricated Starlette search result (float `relevance` and wall-clock
`created_at` omitted; quote characters around the query dropped). -/
structure StarSearchResult where
  id : Int
  title : String
  category : String
  url : String
  snippet : String
deriving DecidableEq

/-- Outcome of the Starlette `GET /search` handler (error bodies omitted). -/
inductive StarSearchResp where
  | badRequest
  | ok (query category : String) (results : List StarSearchResult)
       (page limit : Int) (total : Nat) (has_next : Bool)
deriving DecidableEq

def starlette_valid_categories : List String := ["all", "users", "posts", "files"]

/-- Starlette `search_handler`: empty or absent `q` gives 400, an unknown
category gives 400, otherwise results are fabricated for ids
`(page-1)*limit+1` up to `min(page*limit+1, 43)` with `total_results = 42`. -/
def starlette_search (q category : String) (page limit : Int) : StarSearchResp :=
  if q = "" then .badRequest
  else if ¬ starlette_valid_categories.contains category then .badRequest
  else
    let results := (pyrange ((page - 1) * limit + 1) (min (page * limit + 1) 43)).map (fun i =>
      { id := i
        title := "Search result " ++ toString i ++ " for " ++ q
        category := if category ≠ "all" then category
                    else (["users", "posts", "files"].getD (i % 3).toNat "")
        url := "/" ++ category ++ "/" ++ toString i
        snippet := "This is result " ++ toString i ++ " containing " ++ q ++ " with relevant content..." })
    .ok q category results page limit 42 (decide (page * limit < 42))

/-- One fabricated Tornado search result (float score and wall-clock
`created_at` omitted; quote characters around the query dropped). -/
structure TSearchResult where
  id : Int
  title : String
  rtype : String
  snippet : String
  url : String
deriving DecidableEq

/-- The result list built by Tornado `SearchHandler.perform_search`: ids
range over `(page-1)*limit+1` up to and including `page*limit`, with no
truncation by the reported `total_results`. -/
def tornado_search_results (query search_type : String) (page limit : Int) : List TSearchResult :=
  (pyrange ((page - 1) * limit + 1) (page * limit + 1)).map (fun i =>
    { id := i
      title := "Search result " ++ toString i ++ " for " ++ query
      rtype := if search_type ≠ "all" then search_type
               else (["users", "posts", "files"].getD (i % 3).toNat "")
      snippet := "This is result " ++ toString i ++ " containing " ++ query ++ "..."
      url := "/item/" ++ toString i })

/-- Outcome of the Tornado `GET /search` handler (error body omitted; the
constant `search_time` string is omitted). -/
inductive TSearchResp where
  | badRequest
  | ok (query search_type : String) (results : List TSearchResult)
       (page limit : Int) (total_results : Nat)
deriving DecidableEq

/-- Tornado `SearchHandler.get` composed with `perform_search`: empty or
absent `q` gives 400, otherwise the fabricated results with the constant
`total_results = 150`. -/
def tornado_search (q search_type : String) (page limit : Int) : TSearchResp :=
  if q = "" then .badRequest
  else .ok q search_type (tornado_search_results q search_type page limit) page limit 150

/-- C3 as stated is false for the FastAPI search handler: its `q` parameter
is declared `Query(..., min_length=1)`, so a missing or empty `q` is
rejected by FastAPI request validation with status 422, not 400. -/
theorem C3_fastapi_422_not_400_counterexample :
    fastapi_search_q_check none = some 422 ∧
    fastapi_search_q_check (some "") = some 422 ∧
    (422 : Nat) ≠ 400 := by
  refine ⟨rfl, rfl, by decide⟩

/-- C3 amended: a missing or empty `q` yields 400 from the Flask, Starlette
and Tornado search handlers (each of which reads `q` with an empty-string
default, so absence and emptiness coincide); the FastAPI handler never sees
such a request because its declared validation constraint rejects it with
422. -/
theorem C3_search_missing_q_amended (category search_type : String) (page limit : Int) :
    flask_search "" category page limit = .badRequest ∧
    starlette_search "" category page limit = .badRequest ∧
    tornado_search "" search_type page limit = .badRequest ∧
    fastapi_search_q_check none = some 422 ∧
    fastapi_search_q_check (some "") = some 422 :=
  ⟨rfl, rfl, rfl, rfl, rfl⟩

/-- C10: Tornado `perform_search` fabricates exactly `limit` results for
every `page >= 1`, `limit >= 1`, with ids `(page-1)*limit+1` through
`page*limit`; the list is never truncated by the reported
`total_results = 150`, so every page is non-empty. -/
theorem C10_tornado_search_never_truncated
    (q search_type : String) (page limit : Int)
    (hq : q ≠ "") (hp : 1 ≤ page) (hl : 1 ≤ limit) :
    (tornado_search_results q search_type page limit).length = limit.toNat ∧
    (tornado_search_results q search_type page limit).map TSearchResult.id =
      pyrange ((page - 1) * limit + 1) (page * limit + 1) ∧
    tornado_search_results q search_type page limit ≠ [] ∧
    tornado_search q search_type page limit =
      .ok q search_type (tornado_search_results q search_type page limit) page limit 150 := by
  have hrange : ∀ a b : Int, (pyrange a b).length = (b - a).toNat := by
    intro a b
    rw [pyrange, List.length_map, List.length_range]
  have hlen : (tornado_search_results q search_type page limit).length = limit.toNat := by
    rw [tornado_search_results, List.length_map, hrange]
    congr 1
    ring
  refine ⟨hlen, ?_, ?_, ?_⟩
  · simp only [tornado_search_results, List.map_map]
    exact List.map_id' _
  · intro hnil
    rw [hnil] at hlen
    simp at hlen
    omega
  · rw [tornado_search, if_neg (by simpa using hq)]

/-- Witness for C10 at a page far beyond what 150 total results could fill:
page 1000 with limit 3 still returns 3 results, ids 2998 through 3000. -/
theorem C10_tornado_search_never_truncated_witness :
    (("python" : String) ≠ "" ∧ (1 : Int) ≤ 1000 ∧ (1 : Int) ≤ 3) ∧
    ((tornado_search_results "python" "all" 1000 3).length = (3 : Int).toNat ∧
     (tornado_search_results "python" "all" 1000 3).map TSearchResult.id =
       pyrange (((1000 : Int) - 1) * 3 + 1) ((1000 : Int) * 3 + 1) ∧
     tornado_search_results "python" "all" 1000 3 ≠ [] ∧
     tornado_search "python" "all" 1000 3 =
       .ok "python" "all" (tornado_search_results "python" "all" 1000 3) 1000 3 150) :=
  ⟨⟨by decide, by decide, by decide⟩,
   C10_tornado_search_never_truncated "python" "all" 1000 3 (by decide) (by decide) (by decide)⟩

-- ===========================================================================
-- Authentication  (Flask require_auth 152-171, require_admin 252-264;
-- FastAPI get_current_user 405-421; Starlette TokenAuthBackend 907-929;
-- Tornado BaseHandler.get_current_user 1372-1390, require_admin 1469-1478)
-- ===========================================================================

/-- Python `s.startswith(pre)`, over the character sequence (Lean's own
`String.startsWith` is not kernel-reducible). -/
def py_startswith (s pre : String) : Bool :=
  decide (pre.data <+: s.data)

/-- Python string slicing `s[n:]`, over the character sequence. -/
def py_drop (s : String) (n : Nat) : String :=
  ⟨s.data.drop n⟩

/-- The Flask decorator's fixed token list. -/
def valid_tokens : List String := ["valid-token", "admin-token", "user-token"]

/-- Outcome of the Flask `require_auth` decorator: an error status with its
message, or the `request.current_user` identity it installs. -/
inductive FlaskAuth where
  | err (status : Nat) (msg : String)
  | ok (username : String) (is_admin : Bool)
deriving DecidableEq

/-- Flask `require_auth`: 401 without the `Bearer ` prefix, 401 for a token
outside `valid_tokens`, otherwise the derived identity. -/
def flask_require_auth (auth_header : String) : FlaskAuth :=
  if ¬ py_startswith auth_header "Bearer " then .err 401 "Authentication required"
  else
    let token := py_drop auth_header 7
    if token ∉ valid_tokens then .err 401 "Invalid token"
    else .ok (if token = "admin-token" then "admin" else "user") (decide (token = "admin-token"))

/-- Flask `require_admin`: `some (status, message)` when the request is
rejected, `none` when the wrapped handler runs.  Note it returns 403 for any
bearer token other than `admin-token`, with no validity lookup at all. -/
def flask_require_admin (auth_header : String) : Option (Nat × String) :=
  if ¬ py_startswith auth_header "Bearer " then some (401, "Authentication required")
  else if py_drop auth_header 7 ≠ "admin-token" then some (403, "Admin access required")
  else none

/-- The FastAPI dependency's `user_map`: exactly three tokens. -/
def fastapi_user_map (token : String) : Option FUser :=
  if token = "valid-token" then
    some { id := 1, username := "johndoe", email := "john@example.com", is_active := true, is_admin := false }
  else if token = "admin-token" then
    some { id := 2, username := "admin", email := "admin@example.com", is_active := true, is_admin := true }
  else if token = "user-token" then
    some { id := 3, username := "alice", email := "alice@example.com", is_active := true, is_admin := false }
  else none

/-- FastAPI `get_current_user`: a token outside the map raises HTTP 401. -/
def fastapi_get_current_user (token : String) : Except Nat FUser :=
  match fastapi_user_map token with
  | some u => .ok u
  | none => .error 401

/-- The Starlette `TokenAuthBackend` table: username and scope list per
token, exactly three tokens. -/
def starlette_token_users (token : String) : Option (String × List String) :=
  if token = "admin-token" then some ("admin", ["authenticated", "admin"])
  else if token = "user-token" then some ("user", ["authenticated"])
  else if token = "valid-token" then some ("guest", ["authenticated"])
  else none

/-- Starlette `TokenAuthBackend.authenticate`: `none` (anonymous) when the
header is absent, lacks the `Bearer ` prefix, or carries an unknown token. -/
def starlette_authenticate (auth_header : Option String) : Option (String × List String) :=
  match auth_header with
  | none => none
  | some a => if ¬ py_startswith a "Bearer " then none else starlette_token_users (py_drop a 7)

/-- One entry of Tornado's `token_users` table. -/
structure TUser where
  id : Int
  username : String
  email : String
  is_admin : Bool
  permissions : List String
deriving DecidableEq

/-- Tornado `BaseHandler.get_current_user`'s token table: it contains only
`valid-token` and `admin-token` (no `user-token`). -/
def tornado_token_users (token : String) : Option TUser :=
  if token = "valid-token" then
    some { id := 1, username := "user", email := "user@example.com", is_admin := false,
           permissions := ["read", "write"] }
  else if token = "admin-token" then
    some { id := 2, username := "admin", email := "admin@example.com", is_admin := true,
           permissions := ["read", "write", "admin", "delete"] }
  else none

/-- Tornado `BaseHandler.get_current_user`: `None` without the `Bearer `
prefix, otherwise `token_users.get(token)`. -/
def tornado_get_current_user (auth_header : String) : Option TUser :=
  if py_startswith auth_header "Bearer " then tornado_token_users (py_drop auth_header 7) else none

/-- Tornado `require_admin` decorator: `some (status, message)` when the
request is rejected, `none` when the wrapped handler runs.  A missing user
(missing or unknown token) and a non-admin user are both answered 403. -/
def tornado_require_admin (auth_header : String) : Option (Nat × String) :=
  match tornado_get_current_user auth_header with
  | none => some (403, "Admin access required")
  | some u => if u.is_admin then none else some (403, "Admin access required")

/-- C4 as stated is false: a bearer token outside the valid set does not
always yield 401.  The Flask admin decorator answers 403 for any token other
than `admin-token` (validity never checked), and the Tornado admin decorator
answers 403 for an unknown and even for a missing token. -/
theorem C4_admin_403_for_unknown_token_counterexample :
    flask_require_admin "Bearer bogus-token" = some (403, "Admin access required") ∧
    tornado_require_admin "Bearer bogus-token" = some (403, "Admin access required") ∧
    tornado_require_admin "" = some (403, "Admin access required") ∧
    (403 : Nat) ≠ 401 := by
  refine ⟨rfl, rfl, rfl, by decide⟩

/-- C4 amended: the Flask `require_auth` decorator and the FastAPI
`get_current_user` dependency answer 401 for a missing prefix or a token
outside the fixed set; but the Flask admin endpoint answers 403 for every
bearer token other than `admin-token` (including invalid ones), and the
Tornado admin and delete decorator answers 403 whenever the current user is
missing or non-admin, including missing and unknown tokens. -/
theorem C4_auth_status_amended (h t : String) :
    (py_startswith h "Bearer " = false → flask_require_auth h = .err 401 "Authentication required") ∧
    (py_startswith h "Bearer " = true → (py_drop h 7) ∉ valid_tokens →
       flask_require_auth h = .err 401 "Invalid token") ∧
    (fastapi_user_map t = none → fastapi_get_current_user t = .error 401) ∧
    (py_startswith h "Bearer " = true → py_drop h 7 ≠ "admin-token" →
       flask_require_admin h = some (403, "Admin access required")) ∧
    ((tornado_get_current_user h = none ∨
        (∃ u, tornado_get_current_user h = some u ∧ u.is_admin = false)) →
       tornado_require_admin h = some (403, "Admin access required")) := by
  refine ⟨?_, ?_, ?_, ?_, ?_⟩
  · intro hs
    rw [flask_require_auth, if_pos]
    simp [hs]
  · intro hs hm
    rw [flask_require_auth, if_neg (by simp [hs]), if_pos hm]
  · intro hn
    rw [fastapi_get_current_user, hn]
  · intro hs hm
    rw [flask_require_admin, if_neg (by simp [hs]), if_pos hm]
  · rintro (hn | ⟨u, hu, hadm⟩)
    · rw [tornado_require_admin, hn]
    · rw [tornado_require_admin, hu]
      simp [hadm]

/-- Witness for C4 amended, applying it at a header without the prefix, an
unknown bearer token, and the valid non-admin `user-token` (unknown to
Tornado). -/
theorem C4_auth_status_amended_witness :
    flask_require_auth "Token abc" = .err 401 "Authentication required" ∧
    flask_require_auth "Bearer bogus" = .err 401 "Invalid token" ∧
    fastapi_get_current_user "bogus" = .error 401 ∧
    flask_require_admin "Bearer user-token" = some (403, "Admin access required") ∧
    tornado_require_admin "Bearer user-token" = some (403, "Admin access required") :=
  ⟨(C4_auth_status_amended "Token abc" "bogus").1 (by decide),
   (C4_auth_status_amended "Bearer bogus" "bogus").2.1 (by decide) (by decide),
   (C4_auth_status_amended "Token abc" "bogus").2.2.1 (by decide),
   (C4_auth_status_amended "Bearer user-token" "bogus").2.2.2.1 (by decide) (by decide),
   (C4_auth_status_amended "Bearer user-token" "bogus").2.2.2.2 (Or.inl (by decide))⟩

/-- C6 as stated is false: `user-token` is one of the three fixed tokens,
yet Tornado's `token_users` table does not contain it, so it does not
authenticate there. -/
theorem C6_tornado_missing_user_token_counterexample :
    tornado_token_users "user-token" = none ∧
    "user-token" ∈ valid_tokens ∧
    (fastapi_user_map "user-token").isSome = true := by
  refine ⟨rfl, by decide, rfl⟩

/-- C6 amended: bearer authentication is a fixed-table lookup in every
framework, and in Flask, FastAPI and Starlette exactly the tokens
`valid-token`, `admin-token` and `user-token` authenticate; Tornado's table,
however, contains only `valid-token` and `admin-token`. -/
theorem C6_fixed_token_tables_amended (t : String) :
    (t ∈ valid_tokens ↔ (t = "valid-token" ∨ t = "admin-token" ∨ t = "user-token")) ∧
    ((fastapi_user_map t).isSome = true ↔ (t = "valid-token" ∨ t = "admin-token" ∨ t = "user-token")) ∧
    ((starlette_token_users t).isSome = true ↔ (t = "valid-token" ∨ t = "admin-token" ∨ t = "user-token")) ∧
    ((tornado_token_users t).isSome = true ↔ (t = "valid-token" ∨ t = "admin-token")) := by
  by_cases h1 : t = "valid-token" <;>
  by_cases h2 : t = "admin-token" <;>
  by_cases h3 : t = "user-token" <;>
    simp [valid_tokens, fastapi_user_map, starlette_token_users, tornado_token_users, h1, h2, h3]

-- ===========================================================================
-- File uploads  (FastAPI upload_file 622-640, Starlette upload_handler
-- 1143-1183)
-- ===========================================================================

/-- The fixed upload cap, `10 * 1024 * 1024` bytes in both handlers. -/
def max_upload_size : Nat := 10 * 1024 * 1024

/-- FastAPI `upload_file`: status of the handler body, which runs for an
authenticated user (the `Depends(get_current_user)` dependency rejects
unauthenticated requests before it) and receives the uploaded content; a
payload over the cap raises 413, otherwise the metadata response is 200. -/
def fastapi_upload (content_size : Nat) : Nat :=
  if max_upload_size < content_size then 413 else 200

/-- One file of a Starlette multipart upload: form field name, filename and
content size in bytes. -/
structure UFile where
  field_name : String
  filename : String
  size : Nat
deriving DecidableEq

/-- The `for field_name, file_data in form.items()` loop of the Starlette
`upload_handler`: each file is checked individually against the cap (an
over-cap file aborts with its filename, the 413 case), while `total_size`
only accumulates; on success it returns the accepted files and the total.
(The `content_type` and time-derived `file_id` fields are omitted.) -/
def starlette_upload_go : List UFile → List UFile → Nat → Except String (List UFile × Nat)
  | [], acc, total => .ok (acc, total)
  | f :: rest, acc, total =>
    if max_upload_size < f.size then .error f.filename
    else starlette_upload_go rest (acc ++ [f]) (total + f.size)

/-- Outcome of the Starlette `POST /files/upload` handler. -/
inductive SUploadResp where
  | authRequired
  | fileTooLarge (filename : String)
  | noFiles
  | created (files : List UFile) (total_size : Nat)
deriving DecidableEq

/-- HTTP status of each outcome: 401, 413, 400, 201. -/
def SUploadResp.status : SUploadResp → Nat
  | .authRequired => 401
  | .fileTooLarge _ => 413
  | .noFiles => 400
  | .created _ _ => 201

/-- Starlette `upload_handler`: 401 when `request.user` is not
authenticated, then the per-file loop; an empty upload gives 400, otherwise
201 with the accumulated `total_size`. -/
def starlette_upload (authenticated : Bool) (files : List UFile) : SUploadResp :=
  if ¬ authenticated then .authRequired
  else match starlette_upload_go files [] 0 with
    | .error fn => .fileTooLarge fn
    | .ok (ufs, total) => if ufs.isEmpty then .noFiles else .created ufs total

/-- When every file is within the cap the loop accepts them all and sums
their sizes. -/
theorem starlette_upload_go_ok (files acc : List UFile) (total : Nat)
    (h : ∀ f ∈ files, f.size ≤ max_upload_size) :
    starlette_upload_go files acc total =
      .ok (acc ++ files, total + (files.map UFile.size).sum) := by
  induction files generalizing acc total with
  | nil => simp [starlette_upload_go]
  | cons f rest ih =>
    have hf : ¬ max_upload_size < f.size := by
      have := h f (List.mem_cons_self f rest)
      omega
    rw [starlette_upload_go, if_neg hf, ih _ _ (fun g hg => h g (List.mem_cons_of_mem f hg))]
    simp
    omega

/-- When some file exceeds the cap the loop aborts with an error. -/
theorem starlette_upload_go_err (files acc : List UFile) (total : Nat)
    (h : ∃ f ∈ files, max_upload_size < f.size) :
    ∃ fn, starlette_upload_go files acc total = .error fn := by
  induction files generalizing acc total with
  | nil => simp at h
  | cons f rest ih =>
    by_cases hf : max_upload_size < f.size
    · exact ⟨f.filename, by rw [starlette_upload_go, if_pos hf]⟩
    · rcases h with ⟨g, hg, hgs⟩
      rcases List.mem_cons.mp hg with hgf | hgr
      · exact absurd (hgf ▸ hgs) hf
      · rcases ih (acc ++ [f]) (total + f.size) ⟨g, hgr, hgs⟩ with ⟨fn, hfn⟩
        exact ⟨fn, by rw [starlette_upload_go, if_neg hf, hfn]⟩

/-- C5 as stated is false for the Starlette handler: the cap is enforced per
file only, so a two-file authenticated upload of 6 MiB + 6 MiB (combined
12 MiB, over the 10 MiB cap) is accepted with 201, not rejected with 413. -/
theorem C5_combined_over_cap_accepted_counterexample :
    (starlette_upload true
      [{ field_name := "file1", filename := "a.bin", size := 6 * 1024 * 1024 },
       { field_name := "file2", filename := "b.bin", size := 6 * 1024 * 1024 }]).status = 201 ∧
    max_upload_size < 6 * 1024 * 1024 + 6 * 1024 * 1024 ∧
    (201 : Nat) ≠ 413 := by
  refine ⟨rfl, by decide, by decide⟩

/-- C5 amended: a single uploaded payload over the 10 MiB cap yields 413 in
the FastAPI handler, and any individual file over the cap yields 413 in the
Starlette handler; but the Starlette handler never checks the combined size,
so an authenticated multi-file upload whose files are each within the cap is
accepted with 201 however large the total. -/
theorem C5_upload_cap_amended (content_size : Nat) (files : List UFile)
    (hc : max_upload_size < content_size) :
    fastapi_upload content_size = 413 ∧
    ((∃ f ∈ files, max_upload_size < f.size) → (starlette_upload true files).status = 413) ∧
    (files ≠ [] → (∀ f ∈ files, f.size ≤ max_upload_size) →
       (starlette_upload true files).status = 201) := by
  refine ⟨by rw [fastapi_upload, if_pos hc], ?_, ?_⟩
  · intro hex
    rcases starlette_upload_go_err files [] 0 hex with ⟨fn, hfn⟩
    rw [starlette_upload, if_neg (by simp)]
    rw [hfn]
    rfl
  · intro hne hall
    rw [starlette_upload, if_neg (by simp), starlette_upload_go_ok files [] 0 hall]
    simp [hne, SUploadResp.status]

/-- Witness for C5 amended: an 11 MiB payload is rejected with 413 by both
handlers, while a 6 MiB + 6 MiB two-file upload (combined size over the
cap, each file within it) is accepted with 201 by the Starlette handler. -/
theorem C5_upload_cap_amended_witness :
    max_upload_size < 11 * 1024 * 1024 ∧
    fastapi_upload (11 * 1024 * 1024) = 413 ∧
    (starlette_upload true
      [{ field_name := "file1", filename := "a.bin", size := 11 * 1024 * 1024 }]).status = 413 ∧
    (starlette_upload true
      [{ field_name := "file1", filename := "a.bin", size := 6 * 1024 * 1024 },
       { field_name := "file2", filename := "b.bin", size := 6 * 1024 * 1024 }]).status = 201 :=
  ⟨by decide,
   (C5_upload_cap_amended (11 * 1024 * 1024)
      [{ field_name := "file1", filename := "a.bin", size := 11 * 1024 * 1024 }] (by decide)).1,
   (C5_upload_cap_amended (11 * 1024 * 1024)
      [{ field_name := "file1", filename := "a.bin", size := 11 * 1024 * 1024 }] (by decide)).2.1
     (by decide),
   (C5_upload_cap_amended (11 * 1024 * 1024)
      [{ field_name := "file1", filename := "a.bin", size := 6 * 1024 * 1024 },
       { field_name := "file2", filename := "b.bin", size := 6 * 1024 * 1024 }] (by decide)).2.2
     (by decide) (by decide)⟩

-- ===========================================================================
-- WebSocket handlers  (FastAPI 690-723, Starlette 1189-1262,
-- Tornado AdvancedWebSocket 1890-1966)
-- ===========================================================================

/-- A Python value as produced by `json.loads` (numbers are collapsed to
integers; the handlers below only ever inspect dict structure and string
fields). -/
inductive PyVal where
  | str (s : String)
  | int (n : Int)
  | bool (b : Bool)
  | dict (fields : List (String × PyVal))
  | list (xs : List PyVal)

/-- Python `d.get(k)`: the first binding of `k`, `None` when absent or when
the value is not a dict. -/
def PyVal.get (v : PyVal) (k : String) : Option PyVal :=
  match v with
  | .dict fs => (fs.find? (fun p => p.1 == k)).map (fun p => p.2)
  | _ => none

/-- Whether the value is a Python dict (`isinstance(message, dict)`). -/
def PyVal.isDict : PyVal → Bool
  | .dict _ => true
  | _ => false

/-- The common wrapping of a text frame that fails `json.loads`:
`{"type": "text", "content": data}` — identical in the FastAPI, Starlette
and Tornado handlers. -/
def ws_wrap_text (raw : String) : PyVal :=
  .dict [("type", .str "text"), ("content", .str raw)]

/-- Reply of the FastAPI websocket loop to one parsed message (timestamps
omitted): `pong` when the message is a dict whose `type` is `ping`,
otherwise an echo carrying the message itself. -/
inductive FWsResp where
  | pong
  | echo (data : PyVal)

def fastapi_ws_response (message : PyVal) : FWsResp :=
  match message, message.get "type" with
  | .dict _, some (.str "ping") => .pong
  | _, _ => .echo message

/-- Reply of Starlette `process_websocket_message` (timestamps and the
constant server-stats payload omitted). -/
inductive SWsResp where
  | echoResponse (original : PyVal)
  | timeResponse
  | statsResponse
  | pong
  | unknownCommand (msgType : PyVal)
  | textEcho (message : PyVal)

/-- Starlette `process_websocket_message`: for a dict, dispatch on
`message.get("type", "text")`; every type other than `echo`, `time`,
`stats` and `ping` — including the `text` wrapper — falls into the
`unknown_command` branch; a non-dict is stringified and echoed. -/
def process_websocket_message (message : PyVal) : SWsResp :=
  match message with
  | .dict _ =>
    match (message.get "type").getD (.str "text") with
    | .str "echo" => .echoResponse message
    | .str "time" => .timeResponse
    | .str "stats" => .statsResponse
    | .str "ping" => .pong
    | mt => .unknownCommand mt
  | _ => .textEcho message

/-- One effect of Tornado `AdvancedWebSocket.process_message`: a message
written back to the sender, or the broadcast to the other connections
(whose delivery loop is modelled by `tornado_broadcast` below). -/
inductive TWsEffect where
  | echoResponse (original : PyVal)
  | broadcastToOthers (content : PyVal) (sender : PyVal)
  | statsResponse
  | timeResponse

/-- Tornado `process_message`: dispatch on `data.get("type", "echo")`; the
branches are `echo`, `broadcast`, `stats` and `time`, and any other type —
including the `text` wrapper produced for invalid JSON — matches no branch
and produces no effect at all. -/
def tornado_process_message (data : PyVal) : List TWsEffect :=
  match (data.get "type").getD (.str "echo") with
  | .str "echo" => [.echoResponse data]
  | .str "broadcast" =>
      [.broadcastToOthers ((data.get "content").getD (.str ""))
                          ((data.get "sender").getD (.str "anonymous"))]
  | .str "stats" => [.statsResponse]
  | .str "time" => [.timeResponse]
  | _ => []

/-- C9 as stated is false for the Starlette and Tornado handlers.  All
three wrap a non-JSON text frame as `{"type": "text", "content": raw}`
without failing, but only FastAPI echoes it back: Starlette answers an
`unknown_command` response (which does not carry the wrapped object), and
Tornado matches no branch and sends nothing. -/
theorem C9_invalid_json_not_echoed_counterexample :
    process_websocket_message (ws_wrap_text "hello") = .unknownCommand (.str "text") ∧
    process_websocket_message (ws_wrap_text "hello") ≠ .echoResponse (ws_wrap_text "hello") ∧
    tornado_process_message (ws_wrap_text "hello") = [] := by
  have h1 : process_websocket_message (ws_wrap_text "hello") = .unknownCommand (.str "text") := rfl
  exact ⟨h1, fun hcon => SWsResp.noConfusion (h1.symm.trans hcon), rfl⟩

/-- C9 amended: a text frame that is not valid JSON never makes a handler
fail — each wraps it as `{"type": "text", "content": raw}` — but the
replies differ: FastAPI sends an echo response containing the wrapped
object, Starlette sends an `unknown_command` response naming the `text`
type, and Tornado sends no reply at all. -/
theorem C9_invalid_json_wrapped_amended (raw : String) :
    fastapi_ws_response (ws_wrap_text raw) = .echo (ws_wrap_text raw) ∧
    process_websocket_message (ws_wrap_text raw) = .unknownCommand (.str "text") ∧
    tornado_process_message (ws_wrap_text raw) = [] :=
  ⟨rfl, rfl, rfl⟩

-- ===========================================================================
-- Tornado broadcast loop  (approutes.py lines 1941-1946)
-- ===========================================================================

/-- The message CPython raises when a set changes size while being iterated. -/
def runtimeErrMsg : String := "Set changed size during iteration"

/-- The `for conn in self.connections` loop of the `broadcast` branch, with
CPython set-iterator semantics: connections are identified by id, `conns`
is the iteration order of the set, `fails` tells which peers raise on
`write_message`.  Each iterator step (including the final one detecting
exhaustion) first checks that the set size is unchanged and raises
`RuntimeError` otherwise; the loop body skips the sender, delivers to a
healthy peer, and on a write failure discards the peer from the set —
which flags the mutation that the next step turns into the error. -/
def tornado_broadcast_go (sender : Nat) (fails : Nat → Bool) :
    List Nat → List Nat → List Nat → Bool → Except String (List Nat × List Nat)
  | [], delivered, current, mutated =>
    if mutated then .error runtimeErrMsg else .ok (delivered, current)
  | c :: rest, delivered, current, mutated =>
    if mutated then .error runtimeErrMsg
    else if c = sender then tornado_broadcast_go sender fails rest delivered current mutated
    else if fails c then tornado_broadcast_go sender fails rest delivered (current.erase c) true
    else tornado_broadcast_go sender fails rest (delivered ++ [c]) current mutated

/-- Running the broadcast branch over the connection set: the delivered
peers and the final set on success, or the `RuntimeError`. -/
def tornado_broadcast (sender : Nat) (conns : List Nat) (fails : Nat → Bool) :
    Except String (List Nat × List Nat) :=
  tornado_broadcast_go sender fails conns [] conns false

/-- C7: the claim describes the code's evident intent (the spec's
best-effort silent drop), but the loop discards the failing peer from the
very set it is iterating, so the next iterator step raises `RuntimeError`
and the broadcast aborts before the remaining peers are served.  With
connections {0 (sender), 1, 2} and a failing write to peer 1, the run ends
in the error and peer 2 receives nothing, while the same set with no
failures delivers to both peers. -/
theorem C7_broadcast_mutation_raises :
    tornado_broadcast 0 [0, 1, 2] (fun c => c == 1) = .error runtimeErrMsg ∧
    tornado_broadcast 0 [0, 1, 2] (fun _ => false) = .ok ([1, 2], [0, 1, 2]) := by
  refine ⟨rfl, rfl⟩
